import Mathlib

/-!
Shallow embedding of `src/tools/validate_project_pk_sk_uniqueness.py`.

The script creates three projects (and one baseline each) through an HTTP
API, performs two state transitions per baseline, then reads the records
back from a key-value store and reports PK/SK collisions.

Modelling conventions:
- The environment, the HTTP API and the key-value store are the external
  world; they are passed in as a `World` value (pure functions).
- JSON response objects are modelled as association lists with `String`
  values (the script only ever reads identifier strings out of them);
  request payloads keep a small JSON value type `JVal` so that numeric and
  list-valued fields keep their shape.
- Python truthiness on the values the script tests (`None`, `""`, `{}`)
  is modelled explicitly (`truthyGet`, `Option`/`List.isEmpty`).
- Every outgoing HTTP request and store read is recorded as an `Event`,
  so ordering / abort properties are statements about the event trace.
- `requests.Response.raise_for_status` belongs to the external HTTP
  client; it is modelled under the external-interface contract of the
  spec (a call succeeds exactly when the final status is 2xx).
-/

namespace Validator

/-- JSON values appearing in request payloads of the script: strings,
integers, and lists of strings (`labor_estimates`, `assumptions`, ...). -/
inductive JVal where
  | str : String → JVal
  | num : Int → JVal
  | strList : List String → JVal
deriving DecidableEq

/-- A parsed JSON response object / a store item: keys to string values. -/
abbrev Obj := List (String × String)

/-- `d.get(k)` on a JSON object / item: `none` models Python `None`. -/
def lookupKV (o : Obj) (k : String) : Option String :=
  match o.find? (fun p => p.1 = k) with
  | some p => some p.2
  | none => none

/-- `d.get(k)` filtered through Python truthiness: a present but empty
string is falsy, exactly as in the `or`-chains of the script. -/
def truthyGet (o : Obj) (k : String) : Option String :=
  match lookupKV o k with
  | some v => if v = "" then none else some v
  | none => none

/-- The `or`-chain `d.get(k1) or d.get(k2) or ...`: first truthy value. -/
def firstTruthy (o : Obj) : List String → Option String
  | [] => none
  | k :: rest =>
    match truthyGet o k with
    | some v => some v
    | none => firstTruthy o rest

/-- Python `x or y` on optional strings (used for
`baseline_meta.get("pk") or baseline_link.get("pk")`). -/
def pyOr (a b : Option String) : Option String :=
  match a with
  | some v => if v = "" then b else some v
  | none => b

/-- Truthiness of an optional string (`if r.get("project_pk")`). -/
def truthyOpt (o : Option String) : Bool :=
  match o with
  | some v => v ≠ ""
  | none => false

/-- How an optional string renders inside a Python f-string. -/
def fmtOpt (o : Option String) : String :=
  match o with
  | some v => v
  | none => "None"

/-- Python `str.isspace` characters relevant to `str.strip()`. -/
def pyIsSpace (c : Char) : Bool :=
  c = ' ' || c = '\t' || c = '\n' || c = '\x0d' || c = '\x0b' || c = '\x0c'

/-- Python `value.strip()`: drop leading and trailing whitespace. -/
def pyStrip (s : String) : String :=
  String.mk (((s.data.dropWhile pyIsSpace).reverse.dropWhile pyIsSpace).reverse)

/-- Python `value.rstrip("/")`: drop all trailing slash characters. -/
def rstripSlash (s : String) : String :=
  String.mk ((s.data.reverse.dropWhile (fun c => c = '/')).reverse)

/-- Whether a string ends in a slash character. -/
def endsWithSlash (s : String) : Bool :=
  s.data.getLast? = some '/'

/-- The external inputs of one run: environment variables (`none` models
an unset variable), and the nondeterministic generators the script calls
(`date.today`-based ISO dates, `uuid4().hex[:8]` per project index,
`datetime.utcnow().isoformat()`). -/
structure Env where
  getenv : String → Option String
  isoDate : Nat → String
  uuidHex : Nat → String
  utcNow : String

/-- `API_BASE_ENV_KEYS` of the script. -/
def API_BASE_ENV_KEYS : List String :=
  ["FINZ_API_BASE", "VITE_API_BASE_URL", "DEV_API_URL", "API_BASE_URL"]

/-- `TOKEN_ENV_KEYS` of the script. -/
def TOKEN_ENV_KEYS : List String :=
  ["FINZ_JWT", "FINZ_ID_TOKEN", "ID_TOKEN", "COGNITO_ID_TOKEN",
   "COGNITO_ACCESS_TOKEN", "ACCESS_TOKEN", "AUTH_TOKEN"]

/-- The loop shared by `_resolve_api_base` and `_resolve_bearer_token`:
`os.getenv(key, "").strip()`, first non-empty value wins, together with
the key that supplied it. -/
def resolveFirstNonEmpty (env : Env) : List String → Option (String × String)
  | [] => none
  | k :: rest =>
    let value := pyStrip ((env.getenv k).getD "")
    if value = "" then resolveFirstNonEmpty env rest else some (value, k)

/-- `_resolve_api_base`: first non-empty candidate, with trailing slashes
removed; `ValidationError` message on failure. -/
def resolve_api_base (env : Env) : Except String String :=
  match resolveFirstNonEmpty env API_BASE_ENV_KEYS with
  | some (value, _) => Except.ok (rstripSlash value)
  | none => Except.error
      "API base URL is not configured. Set one of FINZ_API_BASE, VITE_API_BASE_URL, DEV_API_URL, or API_BASE_URL."

/-- `_resolve_bearer_token`: first non-empty candidate and its key. -/
def resolve_bearer_token (env : Env) : Except String (String × String) :=
  match resolveFirstNonEmpty env TOKEN_ENV_KEYS with
  | some vk => Except.ok vk
  | none => Except.error
      "Bearer token not found in environment. Provide Cognito tokens via FINZ_JWT, FINZ_ID_TOKEN, COGNITO_ID_TOKEN, or related vars."

/-- An outgoing HTTP request as the script builds it (method, URL,
headers, JSON payload, and the literal `timeout=30` argument). -/
structure HttpRequest where
  method : String
  url : String
  headers : List (String × String)
  body : List (String × JVal)
  timeout : Nat
deriving DecidableEq

/-- The final response the HTTP client hands back: status code and the
parsed JSON body (`[]` models an empty response text, for which the
script substitutes `{}`). -/
structure HttpResponse where
  status : Nat
  body : Obj

/-- Success per the external-interface contract: final status is 2xx.
`raise_for_status` raises (`TransportError`) exactly otherwise. -/
def is2xx (status : Nat) : Bool :=
  decide (200 ≤ status ∧ status < 300)

/-- `_session()` headers merged with `_auth_headers(token)`. -/
def authHeaders (token : String) : List (String × String) :=
  [("Content-Type", "application/json"), ("Authorization", "Bearer " ++ token)]

/-- The payload of `create_project` (the source interpolates today's
date, a 30-day end date and a fresh `uuid4().hex[:8]` code suffix, all
drawn from `Env`). -/
def projectPayload (env : Env) (idx : Nat) : List (String × JVal) :=
  [("name", JVal.str ("PK-SK Validation Project " ++ toString idx)),
   ("code", JVal.str ("VAL-" ++ env.uuidHex idx)),
   ("client", JVal.str "QA Validator"),
   ("start_date", JVal.str (env.isoDate 0)),
   ("end_date", JVal.str (env.isoDate 30)),
   ("currency", JVal.str "USD"),
   ("mod_total", JVal.num (100000 + idx * 1000)),
   ("description", JVal.str "Automated PK/SK uniqueness validation")]

/-- The request issued by `create_project`. -/
def projectRequest (env : Env) (apiBase token : String) (idx : Nat) : HttpRequest :=
  { method := "POST", url := apiBase ++ "/projects",
    headers := authHeaders token, body := projectPayload env idx, timeout := 30 }

/-- The payload of `create_baseline`, referencing the project id the
create-project call returned. -/
def baselinePayload (env : Env) (projectId : String) (idx : Nat) : List (String × JVal) :=
  [("project_id", JVal.str projectId),
   ("project_name", JVal.str ("PK-SK Validation Project " ++ toString idx)),
   ("project_description", JVal.str "PK/SK guardrail regression"),
   ("client_name", JVal.str "QA Validator"),
   ("currency", JVal.str "USD"),
   ("start_date", JVal.str (env.isoDate 0)),
   ("duration_months", JVal.num 12),
   ("contract_value", JVal.num (100000 + idx * 1000)),
   ("labor_estimates", JVal.strList []),
   ("non_labor_estimates", JVal.strList []),
   ("assumptions", JVal.strList ["automated validation"]),
   ("signed_by", JVal.str ((env.getenv "COGNITO_TEST_USER").getD "pmo-automation@example.com")),
   ("signed_role", JVal.str "PMO"),
   ("signed_at", JVal.str env.utcNow)]

/-- The request issued by `create_baseline`. -/
def baselineRequest (env : Env) (apiBase token projectId : String) (idx : Nat) : HttpRequest :=
  { method := "POST", url := apiBase ++ "/baseline",
    headers := authHeaders token, body := baselinePayload env projectId idx, timeout := 30 }

/-- The request issued by `handoff_baseline`. -/
def handoffRequest (apiBase token projectId baselineId : String) : HttpRequest :=
  { method := "POST", url := apiBase ++ "/projects/" ++ projectId ++ "/handoff",
    headers := authHeaders token,
    body := [("baseline_id", JVal.str baselineId),
             ("mod_total", JVal.num 100000),
             ("pct_ingenieros", JVal.num 70),
             ("pct_sdm", JVal.num 30),
             ("project_name", JVal.str ("Handoff " ++ baselineId)),
             ("client_name", JVal.str "QA Validator")],
    timeout := 30 }

/-- The request issued by `accept_baseline` (a PATCH). -/
def acceptRequest (env : Env) (apiBase token projectId baselineId : String) : HttpRequest :=
  { method := "PATCH", url := apiBase ++ "/projects/" ++ projectId ++ "/accept-baseline",
    headers := authHeaders token,
    body := [("baseline_id", JVal.str baselineId),
             ("accepted_by", JVal.str ((env.getenv "COGNITO_TEST_USER").getD "qa-validator@example.com"))],
    timeout := 30 }

/-- One observable side effect: an HTTP request, a point `get_item` read,
or the fallback `query` (with its `Limit`). -/
inductive Event where
  | http : HttpRequest → Event
  | getItem : String → String → String → Event
  | query : String → String → Nat → Event
deriving DecidableEq

/-- The key-value store: `getItem table pk sk` yields the item (`[]`
models an absent `Item`, mirroring `response.get("Item", {})`), and
`query table pk` yields the items matching the primary key, before the
`Limit` is applied. -/
structure Store where
  getItem : String → String → String → Obj
  query : String → String → List Obj

/-- Everything external a run consumes. -/
structure World where
  env : Env
  api : HttpRequest → HttpResponse
  store : Store

/-- `_dynamo_tables`: the two table names resolved from the environment
with their defaults (region and client construction carry no data the
script later reads). -/
def dynamoTables (env : Env) : String × String :=
  ((env.getenv "TABLE_PROJECTS").getD "finz_projects",
   (env.getenv "TABLE_PREFACTURAS").getD "finz_prefacturas")

/-- `_fetch_project_metadata`: point read of `PROJECT#<id>` / `METADATA`,
together with the event it issues. -/
def fetch_project_metadata (st : Store) (table projectId : String) :
    List Event × Obj :=
  ([Event.getItem table ("PROJECT#" ++ projectId) "METADATA"],
   st.getItem table ("PROJECT#" ++ projectId) "METADATA")

/-- `_fetch_baseline_records`: reads the project-link record and the
baseline metadata record; when the project-link record is absent it
falls back to a `query` on the project's primary key (`Limit=20`) and
takes the first match as a best-effort diagnostic. -/
def fetch_baseline_records (st : Store) (table projectId baselineId : String) :
    List Event × (Obj × Obj) :=
  let project_pk := "PROJECT#" ++ projectId
  let baseline_sk := "BASELINE#" ++ baselineId
  let project_link := st.getItem table project_pk baseline_sk
  let metadata := st.getItem table ("BASELINE#" ++ baselineId) "METADATA"
  let ev0 := [Event.getItem table project_pk baseline_sk,
              Event.getItem table ("BASELINE#" ++ baselineId) "METADATA"]
  if project_link.isEmpty then
    match (st.query table project_pk).take 20 with
    | [] => (ev0 ++ [Event.query table project_pk 20], (project_link, metadata))
    | alt0 :: _ => (ev0 ++ [Event.query table project_pk 20], (alt0, metadata))
  else (ev0, (project_link, metadata))

/-- One entry of the `results` list built in `main`. -/
structure ResultRecord where
  project_id : String
  baseline_id : String
  project_pk : Option String
  project_sk : Option String
  baseline_pk : Option String
  baseline_sk : Option String
  collisions : List String
  warnings : List String
deriving DecidableEq

/-- Warning text of `main` for an unexpected project sk. -/
def unexpectedSkWarning (sk : Option String) : String :=
  "Unexpected project sk: " ++ fmtOpt sk

/-- Warning text of `main` for a baseline link naming another project. -/
def linkMismatchWarning (linked : Option String) (projectId : String) : String :=
  "Baseline link references project " ++ fmtOpt linked ++ " instead of " ++ projectId

/-- Warning text of `main` for baseline metadata naming another project. -/
def metaMismatchWarning (metaPid : Option String) (projectId : String) : String :=
  "Baseline metadata project_id " ++ fmtOpt metaPid ++ " mismatches " ++ projectId

/-- The four warning checks of the verification loop in `main`, in
source order. -/
def buildWarnings (projectId : String) (project_item baseline_link baseline_meta : Obj) :
    List String :=
  (if project_item.isEmpty then ["Project metadata not found"] else []) ++
  (if ¬project_item.isEmpty ∧ lookupKV project_item "sk" ≠ some "METADATA" then
    [unexpectedSkWarning (lookupKV project_item "sk")] else []) ++
  (if ¬baseline_link.isEmpty ∧ lookupKV baseline_link "project_id" ≠ some projectId then
    [linkMismatchWarning (lookupKV baseline_link "project_id") projectId] else []) ++
  (if ¬baseline_meta.isEmpty ∧ lookupKV baseline_meta "project_id" ≠ some projectId then
    [metaMismatchWarning (lookupKV baseline_meta "project_id") projectId] else [])

/-- The result dict appended per record in `main` (the created records
never carry a `collisions` key, so `record.get("collisions", [])` is
always `[]`). -/
def buildResult (projectId baselineId : String)
    (project_item baseline_link baseline_meta : Obj) : ResultRecord :=
  { project_id := projectId,
    baseline_id := baselineId,
    project_pk := lookupKV project_item "pk",
    project_sk := lookupKV project_item "sk",
    baseline_pk := pyOr (lookupKV baseline_meta "pk") (lookupKV baseline_link "pk"),
    baseline_sk := pyOr (lookupKV baseline_meta "sk") (lookupKV baseline_link "sk"),
    collisions := [],
    warnings := buildWarnings projectId project_item baseline_link baseline_meta }

/-- Occurrence count of `a` in `l` (`collections.Counter` count). -/
def countEq [DecidableEq α] (l : List α) (a : α) : Nat :=
  (l.filter (fun b => decide (b = a))).length

/-- Keys of a `Counter` in insertion order: first occurrences, `seen`
accumulating the keys already emitted. -/
def firstOccurrencesAux [DecidableEq α] (seen : List α) : List α → List α
  | [] => []
  | a :: l =>
    if a ∈ seen then firstOccurrencesAux seen l
    else a :: firstOccurrencesAux (a :: seen) l

/-- Keys of a `Counter` built from `l`, in insertion order. -/
def firstOccurrences [DecidableEq α] (l : List α) : List α :=
  firstOccurrencesAux [] l

/-- The generator feeding the PK `Counter` in `_print_report`: the
`project_pk` of every record whose `project_pk` is truthy. -/
def observedPks (results : List ResultRecord) : List String :=
  (results.filter (fun r => truthyOpt r.project_pk)).map (fun r => r.project_pk.getD "")

/-- The generator feeding the pair `Counter` in `_print_report`: the
`(project_pk, project_sk)` of every record whose `project_pk` is truthy
(`project_sk` may still be `None`). -/
def observedPairs (results : List ResultRecord) : List (String × Option String) :=
  (results.filter (fun r => truthyOpt r.project_pk)).map
    (fun r => (r.project_pk.getD "", r.project_sk))

/-- `dup_pks` of `_print_report`: Counter keys with count above one. -/
def dup_pks (results : List ResultRecord) : List String :=
  (firstOccurrences (observedPks results)).filter
    (fun pk => decide (1 < countEq (observedPks results) pk))

/-- `dup_pairs` of `_print_report`. -/
def dup_pairs (results : List ResultRecord) : List (String × Option String) :=
  (firstOccurrences (observedPairs results)).filter
    (fun p => decide (1 < countEq (observedPairs results) p))

/-- What the tail of `_print_report` prints: the duplicate lists, and
whether the pass confirmation ("No PK/SK collisions detected") fired. -/
structure Report where
  dupPks : List String
  dupPairs : List (String × Option String)
  pass : Bool
deriving DecidableEq

/-- The decision content of `_print_report`. -/
def printReport (results : List ResultRecord) : Report :=
  { dupPks := dup_pks results,
    dupPairs := dup_pairs results,
    pass := (dup_pks results).isEmpty && (dup_pairs results).isEmpty }

/-- Errors that escape the creation loop: `ValidationError` messages and
transport failures (carrying the offending status). -/
inductive RunError where
  | validation : String → RunError
  | transport : Nat → RunError
deriving DecidableEq

/-- One entry of the `created` list in `main`. -/
structure CreatedRec where
  project_id : String
  project_payload : Obj
  baseline_id : String
  baseline_response : Obj
  token_source : String
deriving DecidableEq

/-- The id aliases tried by `create_project`, in order. -/
def projectIdAliases : List String := ["projectId", "project_id", "id"]

/-- The id aliases tried for the baseline response in `main`, in order. -/
def baselineIdAliases : List String := ["baselineId", "baseline_id"]

/-- `ValidationError` message of `create_project` (the source
interpolates the full payload repr; here abbreviated to its index). -/
def projectIdMissingMsg (idx : Nat) : String :=
  "API did not return projectId for project payload " ++ toString idx

/-- `ValidationError` message of `main` for a missing baseline id. -/
def baselineIdMissingMsg (projectId : String) : String :=
  "Baseline creation missing baselineId for project " ++ projectId

/-- One iteration of the creation loop in `main`: create a project
(resolving its id through the alias `or`-chain), create a baseline for
it, resolve the baseline id, hand off, accept.  Returns the events
issued and either the created record or the first error raised. -/
def runIter (w : World) (apiBase token tokenSource : String) (idx : Nat) :
    List Event × Except RunError CreatedRec :=
  let preq := projectRequest w.env apiBase token idx
  if is2xx (w.api preq).status then
    match firstTruthy (w.api preq).body projectIdAliases with
    | none => ([Event.http preq], Except.error (RunError.validation (projectIdMissingMsg idx)))
    | some pid =>
      let breq := baselineRequest w.env apiBase token pid idx
      if is2xx (w.api breq).status then
        match firstTruthy (w.api breq).body baselineIdAliases with
        | none => ([Event.http preq, Event.http breq],
                   Except.error (RunError.validation (baselineIdMissingMsg pid)))
        | some bid =>
          let hreq := handoffRequest apiBase token pid bid
          if is2xx (w.api hreq).status then
            let areq := acceptRequest w.env apiBase token pid bid
            if is2xx (w.api areq).status then
              ([Event.http preq, Event.http breq, Event.http hreq, Event.http areq],
               Except.ok { project_id := pid, project_payload := (w.api preq).body,
                           baseline_id := bid, baseline_response := (w.api breq).body,
                           token_source := tokenSource })
            else ([Event.http preq, Event.http breq, Event.http hreq, Event.http areq],
                  Except.error (RunError.transport (w.api areq).status))
          else ([Event.http preq, Event.http breq, Event.http hreq],
                Except.error (RunError.transport (w.api hreq).status))
      else ([Event.http preq, Event.http breq],
            Except.error (RunError.transport (w.api breq).status))
  else ([Event.http preq], Except.error (RunError.transport (w.api preq).status))

/-- The creation loop of `main` over the given indices, left to right,
short-circuiting on the first error while keeping the events issued so
far. -/
def runLoopAux (w : World) (apiBase token tokenSource : String) :
    List Nat → List Event × Except RunError (List CreatedRec)
  | [] => ([], Except.ok [])
  | idx :: rest =>
    match runIter w apiBase token tokenSource idx with
    | (evs, Except.error e) => (evs, Except.error e)
    | (evs, Except.ok rec) =>
      match runLoopAux w apiBase token tokenSource rest with
      | (evs2, Except.error e) => (evs ++ evs2, Except.error e)
      | (evs2, Except.ok recs) => (evs ++ evs2, Except.ok (rec :: recs))

/-- `for idx in range(1, 4)`: the fixed batch of three iterations. -/
def runLoop (w : World) (apiBase token tokenSource : String) :
    List Event × Except RunError (List CreatedRec) :=
  runLoopAux w apiBase token tokenSource [1, 2, 3]

/-- The verification pass of `main` for one created record. -/
def verifyOne (st : Store) (projTable prefTable : String) (rec : CreatedRec) :
    List Event × ResultRecord :=
  let p := fetch_project_metadata st projTable rec.project_id
  let b := fetch_baseline_records st prefTable rec.project_id rec.baseline_id
  (p.1 ++ b.1, buildResult rec.project_id rec.baseline_id p.2 b.2.1 b.2.2)

/-- The verification pass of `main` over all created records, in order. -/
def verifyAll (st : Store) (projTable prefTable : String) :
    List CreatedRec → List Event × List ResultRecord
  | [] => ([], [])
  | rec :: rest =>
    let h := verifyOne st projTable prefTable rec
    let t := verifyAll st projTable prefTable rest
    (h.1 ++ t.1, h.2 :: t.2)

/-- Everything observable about one run of `main` (under
`sys.exit(main())`): the event trace, the results list (when the
verification phase ran), the report (when `_print_report` ran), and the
exit: `Except.ok code` for a normal return, `Except.error e` for an
uncaught exception (which makes the process exit non-zero). -/
structure RunOutcome where
  events : List Event
  results : Option (List ResultRecord)
  report : Option Report
  exitCode : Except RunError Nat

/-- `main`: configuration resolution (returning 1 on a configuration
`ValidationError`), the creation loop, the verification pass, the
report, and `return 0`. -/
def main (w : World) : RunOutcome :=
  match resolve_api_base w.env with
  | Except.error _ => { events := [], results := none, report := none, exitCode := Except.ok 1 }
  | Except.ok api_base =>
    match resolve_bearer_token w.env with
    | Except.error _ => { events := [], results := none, report := none, exitCode := Except.ok 1 }
    | Except.ok tk =>
      match runLoop w api_base tk.1 tk.2 with
      | (evs, Except.error e) =>
        { events := evs, results := none, report := none, exitCode := Except.error e }
      | (evs, Except.ok created) =>
        let v := verifyAll w.store (dynamoTables w.env).1 (dynamoTables w.env).2 created
        { events := evs ++ v.1, results := some v.2,
          report := some (printReport v.2), exitCode := Except.ok 0 }

/-- Events that are store reads (point reads or the fallback query), as
opposed to outgoing HTTP calls. -/
def isStoreRead : Event → Bool
  | Event.http _ => false
  | Event.getItem _ _ _ => true
  | Event.query _ _ _ => true

/-- Events that are the diagnostic fallback query. -/
def isQueryEvent : Event → Bool
  | Event.query _ _ _ => true
  | _ => false

/-- The four HTTP events one successful loop iteration issues, in source
order: create project, create baseline, handoff, accept. -/
def iterEvents (env : Env) (apiBase token : String) (idx : Nat) (pid bid : String) :
    List Event :=
  [Event.http (projectRequest env apiBase token idx),
   Event.http (baselineRequest env apiBase token pid idx),
   Event.http (handoffRequest apiBase token pid bid),
   Event.http (acceptRequest env apiBase token pid bid)]

/-- A happy-path environment: base URL and token under the
first-priority keys, deterministic generators. -/
def goodEnv : Env :=
  { getenv := fun k =>
      if k = "FINZ_API_BASE" then some "http://api"
      else if k = "FINZ_JWT" then some "tok" else none,
    isoDate := fun d => "2026-01-01+" ++ toString d,
    uuidHex := fun i => "u" ++ toString i,
    utcNow := "2026-01-01T00:00:00" }

/-- Response with status 200 and the given body. -/
def okResp (body : Obj) : HttpResponse :=
  { status := 200, body := body }

/-- A happy-path API: three distinct project ids, one baseline each,
2xx on every transition. -/
def goodApi : HttpRequest → HttpResponse := fun req =>
  if req = projectRequest goodEnv "http://api" "tok" 1 then okResp [("projectId", "P1")]
  else if req = projectRequest goodEnv "http://api" "tok" 2 then okResp [("projectId", "P2")]
  else if req = projectRequest goodEnv "http://api" "tok" 3 then okResp [("projectId", "P3")]
  else if req = baselineRequest goodEnv "http://api" "tok" "P1" 1 then okResp [("baselineId", "B1")]
  else if req = baselineRequest goodEnv "http://api" "tok" "P2" 2 then okResp [("baselineId", "B2")]
  else if req = baselineRequest goodEnv "http://api" "tok" "P3" 3 then okResp [("baselineId", "B3")]
  else okResp []

/-- A happy-path store: every created record present under its designed
keys, with consistent linkage. -/
def goodStore : Store :=
  { getItem := fun _ pk sk =>
      if pk = "PROJECT#P1" ∧ sk = "METADATA" then [("pk", "PROJECT#P1"), ("sk", "METADATA")]
      else if pk = "PROJECT#P2" ∧ sk = "METADATA" then [("pk", "PROJECT#P2"), ("sk", "METADATA")]
      else if pk = "PROJECT#P3" ∧ sk = "METADATA" then [("pk", "PROJECT#P3"), ("sk", "METADATA")]
      else if pk = "PROJECT#P1" ∧ sk = "BASELINE#B1" then
        [("pk", "PROJECT#P1"), ("sk", "BASELINE#B1"), ("project_id", "P1")]
      else if pk = "PROJECT#P2" ∧ sk = "BASELINE#B2" then
        [("pk", "PROJECT#P2"), ("sk", "BASELINE#B2"), ("project_id", "P2")]
      else if pk = "PROJECT#P3" ∧ sk = "BASELINE#B3" then
        [("pk", "PROJECT#P3"), ("sk", "BASELINE#B3"), ("project_id", "P3")]
      else if pk = "BASELINE#B1" ∧ sk = "METADATA" then
        [("pk", "BASELINE#B1"), ("sk", "METADATA"), ("project_id", "P1")]
      else if pk = "BASELINE#B2" ∧ sk = "METADATA" then
        [("pk", "BASELINE#B2"), ("sk", "METADATA"), ("project_id", "P2")]
      else if pk = "BASELINE#B3" ∧ sk = "METADATA" then
        [("pk", "BASELINE#B3"), ("sk", "METADATA"), ("project_id", "P3")]
      else [],
    query := fun _ _ => [] }

/-- Happy-path world. -/
def Wgood : World :=
  { env := goodEnv, api := goodApi, store := goodStore }

/-- An API whose id generation is broken: every project creation returns
the same id `P`, every baseline the same id `B`. -/
def dupApi : HttpRequest → HttpResponse := fun req =>
  if req.url = "http://api/projects" then okResp [("projectId", "P")]
  else if req.url = "http://api/baseline" then okResp [("baselineId", "B")]
  else okResp []

/-- The store as the broken API leaves it: one project record, one
baseline, shared by all three iterations. -/
def dupStore : Store :=
  { getItem := fun _ pk sk =>
      if pk = "PROJECT#P" ∧ sk = "METADATA" then [("pk", "PROJECT#P"), ("sk", "METADATA")]
      else if pk = "PROJECT#P" ∧ sk = "BASELINE#B" then
        [("pk", "PROJECT#P"), ("sk", "BASELINE#B"), ("project_id", "P")]
      else if pk = "BASELINE#B" ∧ sk = "METADATA" then
        [("pk", "BASELINE#B"), ("sk", "METADATA"), ("project_id", "P")]
      else [],
    query := fun _ _ => [] }

/-- World in which all three created projects collapse to one PK. -/
def Wdup : World :=
  { env := goodEnv, api := dupApi, store := dupStore }

/-- An API returning 2xx on project creation but with every id alias
absent or empty. -/
def noIdApi : HttpRequest → HttpResponse := fun req =>
  if req.url = "http://api/projects" then okResp [("projectId", ""), ("id", "")]
  else okResp []

/-- World whose create-project response carries no usable id alias. -/
def WnoId : World :=
  { env := goodEnv, api := noIdApi, store := goodStore }

/-- An API returning a project id but an empty-bodied baseline response
(no baseline id alias). -/
def noBidApi : HttpRequest → HttpResponse := fun req =>
  if req.url = "http://api/projects" then okResp [("projectId", "P")]
  else okResp []

/-- World whose create-baseline response carries no baseline id alias. -/
def WnoBid : World :=
  { env := goodEnv, api := noBidApi, store := goodStore }

/-- The happy-path API, except the first accept transition fails 500. -/
def failApi : HttpRequest → HttpResponse := fun req =>
  if req = acceptRequest goodEnv "http://api" "tok" "P1" "B1" then { status := 500, body := [] }
  else goodApi req

/-- World whose first accept call fails with a non-2xx status. -/
def Wfail : World :=
  { env := goodEnv, api := failApi, store := goodStore }

/-- World with an entirely empty environment. -/
def Wempty : World :=
  { env := { getenv := fun _ => none, isoDate := fun _ => "", uuidHex := fun _ => "",
             utcNow := "" },
    api := fun _ => okResp [], store := goodStore }

/-- An environment whose first base-URL candidate is whitespace-only and
whose second carries surrounding whitespace and trailing slashes. -/
def wsEnv : Env :=
  { getenv := fun k =>
      if k = "FINZ_API_BASE" then some "   "
      else if k = "VITE_API_BASE_URL" then some "  http://x//  "
      else if k = "FINZ_JWT" then some " tok " else none,
    isoDate := fun d => toString d, uuidHex := fun i => toString i, utcNow := "" }

/-- Store for the C4 scenario: project-link record present, baseline
metadata record absent; the fallback query would find an item. -/
def c4Store : Store :=
  { getItem := fun _ pk sk =>
      if pk = "PROJECT#p1" ∧ sk = "BASELINE#b1" then
        [("pk", "PROJECT#p1"), ("sk", "BASELINE#b1"), ("project_id", "p1")]
      else if pk = "PROJECT#p1" ∧ sk = "METADATA" then
        [("pk", "PROJECT#p1"), ("sk", "METADATA")]
      else [],
    query := fun _ pk => [[("pk", pk), ("sk", "SOMETHING")]] }

/-- Records of a clean run, used to instantiate dataset-level theorems. -/
def rsW : List ResultRecord :=
  [{ project_id := "P1", baseline_id := "B1", project_pk := some "PROJECT#P1",
     project_sk := some "METADATA", baseline_pk := some "BASELINE#B1",
     baseline_sk := some "METADATA", collisions := [], warnings := [] },
   { project_id := "P2", baseline_id := "B2", project_pk := some "PROJECT#P2",
     project_sk := some "METADATA", baseline_pk := some "BASELINE#B2",
     baseline_sk := some "METADATA", collisions := [], warnings := [] },
   { project_id := "P3", baseline_id := "B3", project_pk := some "PROJECT#P3",
     project_sk := some "METADATA", baseline_pk := some "BASELINE#B3",
     baseline_sk := some "METADATA", collisions := [], warnings := [] }]

/-- The outcome of a run aborted by a configuration error. -/
def configAbortOutcome : RunOutcome :=
  { events := [], results := none, report := none, exitCode := Except.ok 1 }

/-- The report produced when all three created projects share one PK. -/
def dupReport : Report :=
  { dupPks := ["PROJECT#P"], dupPairs := [("PROJECT#P", some "METADATA")], pass := false }

/-- A concrete project metadata item with the designed keys. -/
def piW : Obj := [("pk", "PROJECT#P1"), ("sk", "METADATA")]

/-- A concrete baseline metadata item with a mismatched project_id. -/
def bmW : Obj := [("pk", "BASELINE#B1"), ("sk", "METADATA"), ("project_id", "OTHER")]

/-- A record whose project metadata was not found (no observed PK). -/
def rFalsy : ResultRecord :=
  { project_id := "PX", baseline_id := "BX", project_pk := none, project_sk := none,
    baseline_pk := none, baseline_sk := none, collisions := [],
    warnings := ["Project metadata not found"] }

lemma countEq_cons [DecidableEq α] (a x : α) (l : List α) :
    countEq (a :: l) x = (if a = x then 1 else 0) + countEq l x := by
  simp only [countEq, List.filter_cons]
  by_cases h : a = x <;> simp [h, Nat.add_comm]

lemma countEq_append [DecidableEq α] (l1 l2 : List α) (x : α) :
    countEq (l1 ++ l2) x = countEq l1 x + countEq l2 x := by
  simp [countEq, List.filter_append]

lemma countEq_eq_zero_of_not_mem [DecidableEq α] {l : List α} {x : α} (h : x ∉ l) :
    countEq l x = 0 := by
  induction l with
  | nil => rfl
  | cons a t ih =>
    rw [countEq_cons]
    have hax : ¬a = x := fun he => h (he ▸ List.mem_cons_self a t)
    have hxt : x ∉ t := fun hm => h (List.mem_cons_of_mem a hm)
    simp [hax, ih hxt]

lemma mem_of_countEq_pos [DecidableEq α] {l : List α} {x : α} (h : 0 < countEq l x) :
    x ∈ l := by
  by_contra hm
  rw [countEq_eq_zero_of_not_mem hm] at h
  exact Nat.lt_irrefl 0 h

lemma countEq_le_one_of_nodup [DecidableEq α] {l : List α} (h : l.Nodup) (x : α) :
    countEq l x ≤ 1 := by
  induction l with
  | nil => exact Nat.zero_le 1
  | cons a t ih =>
    rw [List.nodup_cons] at h
    rw [countEq_cons]
    by_cases hax : a = x
    · subst hax
      rw [countEq_eq_zero_of_not_mem h.1]
      simp
    · simpa [hax] using ih h.2

lemma mem_firstOccurrencesAux [DecidableEq α] (l : List α) :
    ∀ (seen : List α) (x : α), x ∈ firstOccurrencesAux seen l ↔ (x ∈ l ∧ x ∉ seen) := by
  induction l with
  | nil => intro seen x; simp [firstOccurrencesAux]
  | cons a t ih =>
    intro seen x
    by_cases ha : a ∈ seen
    · rw [firstOccurrencesAux, if_pos ha, ih seen x]
      constructor
      · rintro ⟨hxt, hxs⟩
        exact ⟨List.mem_cons_of_mem a hxt, hxs⟩
      · rintro ⟨hx, hxs⟩
        rcases List.mem_cons.mp hx with rfl | hxt
        · exact absurd ha hxs
        · exact ⟨hxt, hxs⟩
    · rw [firstOccurrencesAux, if_neg ha]
      by_cases hxa : x = a
      · subst hxa
        simp [ha]
      · rw [List.mem_cons]
        constructor
        · rintro (rfl | hmem)
          · exact absurd rfl hxa
          · rcases (ih (a :: seen) x).mp hmem with ⟨hxt, hxs⟩
            exact ⟨List.mem_cons_of_mem a hxt,
                   fun hs => hxs (List.mem_cons_of_mem a hs)⟩
        · rintro ⟨hx, hxs⟩
          rcases List.mem_cons.mp hx with rfl | hxt
          · exact absurd rfl hxa
          · exact Or.inr ((ih (a :: seen) x).mpr
              ⟨hxt, fun hs => by
                rcases List.mem_cons.mp hs with rfl | hs2
                · exact hxa rfl
                · exact hxs hs2⟩)

lemma mem_firstOccurrences [DecidableEq α] (l : List α) (x : α) :
    x ∈ firstOccurrences l ↔ x ∈ l := by
  rw [firstOccurrences, mem_firstOccurrencesAux]
  simp

lemma mem_dup_pks (results : List ResultRecord) (pk : String) :
    pk ∈ dup_pks results ↔ 1 < countEq (observedPks results) pk := by
  rw [dup_pks, List.mem_filter, mem_firstOccurrences]
  constructor
  · rintro ⟨_, h⟩
    exact of_decide_eq_true h
  · intro h
    exact ⟨mem_of_countEq_pos (Nat.lt_of_lt_of_le Nat.zero_lt_one (Nat.le_of_lt h)),
           decide_eq_true h⟩

lemma mem_dup_pairs (results : List ResultRecord) (p : String × Option String) :
    p ∈ dup_pairs results ↔ 1 < countEq (observedPairs results) p := by
  rw [dup_pairs, List.mem_filter, mem_firstOccurrences]
  constructor
  · rintro ⟨_, h⟩
    exact of_decide_eq_true h
  · intro h
    exact ⟨mem_of_countEq_pos (Nat.lt_of_lt_of_le Nat.zero_lt_one (Nat.le_of_lt h)),
           decide_eq_true h⟩

lemma dup_pks_eq_nil_of_nodup {results : List ResultRecord}
    (h : (observedPks results).Nodup) : dup_pks results = [] := by
  rcases hd : dup_pks results with _ | ⟨pk, rest⟩
  · rfl
  · exfalso
    have hpk : pk ∈ dup_pks results := hd ▸ List.mem_cons_self pk rest
    have := (mem_dup_pks results pk).mp hpk
    exact Nat.lt_irrefl 1 (Nat.lt_of_lt_of_le this (countEq_le_one_of_nodup h pk))

lemma dup_pairs_eq_nil_of_nodup {results : List ResultRecord}
    (h : (observedPairs results).Nodup) : dup_pairs results = [] := by
  rcases hd : dup_pairs results with _ | ⟨p, rest⟩
  · rfl
  · exfalso
    have hp : p ∈ dup_pairs results := hd ▸ List.mem_cons_self p rest
    have := (mem_dup_pairs results p).mp hp
    exact Nat.lt_irrefl 1 (Nat.lt_of_lt_of_le this (countEq_le_one_of_nodup h p))

lemma observedPks_append (l1 l2 : List ResultRecord) :
    observedPks (l1 ++ l2) = observedPks l1 ++ observedPks l2 := by
  simp [observedPks, List.filter_append]

lemma observedPairs_append (l1 l2 : List ResultRecord) :
    observedPairs (l1 ++ l2) = observedPairs l1 ++ observedPairs l2 := by
  simp [observedPairs, List.filter_append]

lemma observedPks_cons_falsy {r : ResultRecord} (h : truthyOpt r.project_pk = false)
    (l : List ResultRecord) : observedPks (r :: l) = observedPks l := by
  simp [observedPks, List.filter_cons, h]

lemma observedPairs_cons_falsy {r : ResultRecord} (h : truthyOpt r.project_pk = false)
    (l : List ResultRecord) : observedPairs (r :: l) = observedPairs l := by
  simp [observedPairs, List.filter_cons, h]

lemma printReport_congr {rs1 rs2 : List ResultRecord}
    (hp : observedPks rs1 = observedPks rs2)
    (hq : observedPairs rs1 = observedPairs rs2) :
    printReport rs1 = printReport rs2 := by
  simp [printReport, dup_pks, dup_pairs, hp, hq]

lemma observedPks_nil_of_all_falsy {rs : List ResultRecord}
    (h : ∀ x ∈ rs, truthyOpt x.project_pk = false) : observedPks rs = [] := by
  induction rs with
  | nil => rfl
  | cons a t ih =>
    rw [observedPks_cons_falsy (h a (List.mem_cons_self a t))]
    exact ih (fun x hx => h x (List.mem_cons_of_mem a hx))

lemma observedPairs_nil_of_all_falsy {rs : List ResultRecord}
    (h : ∀ x ∈ rs, truthyOpt x.project_pk = false) : observedPairs rs = [] := by
  induction rs with
  | nil => rfl
  | cons a t ih =>
    rw [observedPairs_cons_falsy (h a (List.mem_cons_self a t))]
    exact ih (fun x hx => h x (List.mem_cons_of_mem a hx))

/-- C2: the collision scan flags exactly the observed project PK values
occurring more than once and the observed (PK, SK) pairs occurring more
than once; for a non-empty batch in which all records carry observed,
pairwise-distinct PKs and pairs, no duplicate is reported and the pass
confirmation is printed. -/
theorem collision_scan_exact (results : List ResultRecord) :
    (∀ pk, pk ∈ dup_pks results ↔ 1 < countEq (observedPks results) pk)
    ∧ (∀ p, p ∈ dup_pairs results ↔ 1 < countEq (observedPairs results) p)
    ∧ (results ≠ [] →
        (∀ r ∈ results, truthyOpt r.project_pk = true) →
        (observedPks results).Nodup →
        (observedPairs results).Nodup →
        printReport results = { dupPks := [], dupPairs := [], pass := true }) := by
  refine ⟨mem_dup_pks results, mem_dup_pairs results, ?_⟩
  intro _ _ hpks hpairs
  simp [printReport, dup_pks_eq_nil_of_nodup hpks, dup_pairs_eq_nil_of_nodup hpairs]

/-- Witness for C2 on a concrete clean batch of three records. -/
theorem collision_scan_exact_witness :
    printReport rsW = { dupPks := [], dupPairs := [], pass := true } :=
  (collision_scan_exact rsW).2.2 (by decide) (by decide) (by decide) (by decide)

/-- C9: a result record with no observed project PK (project metadata
not found) is excluded from both frequency counts, so it does not change
the report; a run in which no project metadata was found at all still
prints the pass confirmation; and a missing project metadata item makes
the observed PK absent. -/
theorem collision_scan_excludes_missing_pk (rs1 rs2 : List ResultRecord)
    (r : ResultRecord) (h : truthyOpt r.project_pk = false) :
    printReport (rs1 ++ r :: rs2) = printReport (rs1 ++ rs2)
    ∧ (∀ rs : List ResultRecord, (∀ x ∈ rs, truthyOpt x.project_pk = false) →
        printReport rs = { dupPks := [], dupPairs := [], pass := true })
    ∧ (∀ pid bid bl bm, (buildResult pid bid [] bl bm).project_pk = none) := by
  refine ⟨?_, ?_, ?_⟩
  · exact printReport_congr
      (by rw [observedPks_append, observedPks_append, observedPks_cons_falsy h])
      (by rw [observedPairs_append, observedPairs_append, observedPairs_cons_falsy h])
  · intro rs hall
    simp [printReport, dup_pks, dup_pairs, observedPks_nil_of_all_falsy hall,
          observedPairs_nil_of_all_falsy hall, firstOccurrences, firstOccurrencesAux]
  · intro pid bid bl bm
    rfl

/-- Witness for C9: one record with a missing observed PK still yields
the pass confirmation. -/
theorem collision_scan_excludes_missing_pk_witness :
    printReport [rFalsy] = { dupPks := [], dupPairs := [], pass := true } :=
  (collision_scan_excludes_missing_pk [] [] rFalsy rfl).2.1 [rFalsy] (by decide)

lemma strData_append (s t : String) : (s ++ t).data = s.data ++ t.data := by
  cases s
  cases t
  rfl

lemma take10_append (s t : String) (h : 10 ≤ s.data.length) :
    (s ++ t).data.take 10 = s.data.take 10 := by
  rw [strData_append]
  exact List.take_append_of_le_length h

lemma len_le_append (s t : String) (h : 10 ≤ s.data.length) :
    10 ≤ (s ++ t).data.length := by
  rw [strData_append, List.length_append]
  exact Nat.le_trans h (Nat.le_add_right _ _)

lemma take10_prefix4 (p x q y : String) (hp : 10 ≤ p.data.length) :
    (p ++ x ++ q ++ y).data.take 10 = p.data.take 10 := by
  rw [take10_append _ y (len_le_append _ q (len_le_append _ x hp)),
      take10_append _ q (len_le_append _ x hp), take10_append _ x hp]

lemma ne_of_take10 {s t : String} (h : s.data.take 10 ≠ t.data.take 10) : s ≠ t :=
  fun he => h (he ▸ rfl)

lemma meta_take10 (x : Option String) (pid : String) :
    (metaMismatchWarning x pid).data.take 10
      = ("Baseline metadata project_id ").data.take 10 :=
  take10_prefix4 "Baseline metadata project_id " (fmtOpt x) " mismatches " pid (by decide)

lemma link_take10 (x : Option String) (pid : String) :
    (linkMismatchWarning x pid).data.take 10
      = ("Baseline link references project ").data.take 10 :=
  take10_prefix4 "Baseline link references project " (fmtOpt x) " instead of " pid (by decide)

lemma sk_take10 (sk : Option String) :
    (unexpectedSkWarning sk).data.take 10 = ("Unexpected project sk: ").data.take 10 :=
  take10_append "Unexpected project sk: " (fmtOpt sk) (by decide)

lemma proj_ne_meta (x : Option String) (pid : String) :
    "Project metadata not found" ≠ metaMismatchWarning x pid :=
  ne_of_take10 (by rw [meta_take10]; decide)

lemma sk_ne_meta (sk x : Option String) (pid : String) :
    unexpectedSkWarning sk ≠ metaMismatchWarning x pid :=
  ne_of_take10 (by rw [meta_take10, sk_take10]; decide)

lemma link_ne_meta (y x : Option String) (pid2 pid : String) :
    linkMismatchWarning y pid2 ≠ metaMismatchWarning x pid :=
  ne_of_take10 (by rw [meta_take10, link_take10]; decide)

lemma countEq_singleton_self [DecidableEq α] (x : α) : countEq [x] x = 1 := by
  simp [countEq]

lemma countEq_singleton_ne [DecidableEq α] {s x : α} (h : s ≠ x) : countEq [s] x = 0 := by
  simp [countEq, h]

lemma observedPks_cons (r : ResultRecord) (l : List ResultRecord) :
    observedPks (r :: l)
      = (if truthyOpt r.project_pk then [r.project_pk.getD ""] else []) ++ observedPks l := by
  simp only [observedPks, List.filter_cons]
  by_cases h : truthyOpt r.project_pk <;> simp [h]

lemma observedPairs_cons (r : ResultRecord) (l : List ResultRecord) :
    observedPairs (r :: l)
      = (if truthyOpt r.project_pk then [(r.project_pk.getD "", r.project_sk)] else [])
        ++ observedPairs l := by
  simp only [observedPairs, List.filter_cons]
  by_cases h : truthyOpt r.project_pk <;> simp [h]

/-- C6: a present baseline metadata record whose embedded project_id
differs from the owning project yields exactly one warning naming both
values; and since the collision scan only reads the observed project
PK/SK fields (which ignore the baseline records entirely), the mismatch
contributes nothing to the duplicate counts. -/
theorem metadata_mismatch_single_warning (pid bid : String) (pi bl bm : Obj)
    (h1 : bm.isEmpty = false)
    (h2 : lookupKV bm "project_id" ≠ some pid) :
    countEq (buildResult pid bid pi bl bm).warnings
        (metaMismatchWarning (lookupKV bm "project_id") pid) = 1
    ∧ (buildResult pid bid pi bl bm).project_pk = lookupKV pi "pk"
    ∧ (buildResult pid bid pi bl bm).project_sk = lookupKV pi "sk"
    ∧ ∀ (rs1 rs2 : List ResultRecord) (bl2 bm2 : Obj),
        printReport (rs1 ++ buildResult pid bid pi bl bm :: rs2)
          = printReport (rs1 ++ buildResult pid bid pi bl2 bm2 :: rs2) := by
  refine ⟨?_, rfl, rfl, ?_⟩
  · show countEq (buildWarnings pid pi bl bm)
        (metaMismatchWarning (lookupKV bm "project_id") pid) = 1
    rw [buildWarnings, countEq_append, countEq_append, countEq_append]
    have e1 : countEq (if pi.isEmpty then ["Project metadata not found"] else [])
        (metaMismatchWarning (lookupKV bm "project_id") pid) = 0 := by
      by_cases hc : pi.isEmpty = true
      · rw [if_pos hc]
        exact countEq_singleton_ne (proj_ne_meta _ _)
      · rw [if_neg hc]
        rfl
    have e2 : countEq
        (if ¬pi.isEmpty ∧ lookupKV pi "sk" ≠ some "METADATA" then
          [unexpectedSkWarning (lookupKV pi "sk")] else [])
        (metaMismatchWarning (lookupKV bm "project_id") pid) = 0 := by
      by_cases hc : ¬pi.isEmpty ∧ lookupKV pi "sk" ≠ some "METADATA"
      · rw [if_pos hc]
        exact countEq_singleton_ne (sk_ne_meta _ _ _)
      · rw [if_neg hc]
        rfl
    have e3 : countEq
        (if ¬bl.isEmpty ∧ lookupKV bl "project_id" ≠ some pid then
          [linkMismatchWarning (lookupKV bl "project_id") pid] else [])
        (metaMismatchWarning (lookupKV bm "project_id") pid) = 0 := by
      by_cases hc : ¬bl.isEmpty ∧ lookupKV bl "project_id" ≠ some pid
      · rw [if_pos hc]
        exact countEq_singleton_ne (link_ne_meta _ _ _ _)
      · rw [if_neg hc]
        rfl
    have e4 : countEq
        (if ¬bm.isEmpty ∧ lookupKV bm "project_id" ≠ some pid then
          [metaMismatchWarning (lookupKV bm "project_id") pid] else [])
        (metaMismatchWarning (lookupKV bm "project_id") pid) = 1 := by
      rw [if_pos ⟨by simp [h1], h2⟩]
      exact countEq_singleton_self _
    rw [e1, e2, e3, e4]
  · intro rs1 rs2 bl2 bm2
    have hpk : (buildResult pid bid pi bl bm).project_pk
        = (buildResult pid bid pi bl2 bm2).project_pk := rfl
    have hsk : (buildResult pid bid pi bl bm).project_sk
        = (buildResult pid bid pi bl2 bm2).project_sk := rfl
    apply printReport_congr
    · rw [observedPks_append, observedPks_append, observedPks_cons, observedPks_cons,
          hpk]
    · rw [observedPairs_append, observedPairs_append, observedPairs_cons,
          observedPairs_cons, hpk, hsk]

/-- Witness for C6 on a concrete mismatched baseline metadata record. -/
theorem metadata_mismatch_single_warning_witness :
    countEq (buildResult "P1" "B1" piW [] bmW).warnings
        (metaMismatchWarning (lookupKV bmW "project_id") "P1") = 1 :=
  (metadata_mismatch_single_warning "P1" "B1" piW [] bmW rfl (by decide)).1

lemma main_shape (w : World) :
    (main w = configAbortOutcome)
    ∨ (∃ e evs, main w = { events := evs, results := none, report := none,
                           exitCode := Except.error e })
    ∨ (∃ evs created, main w =
        { events := evs ++ (verifyAll w.store (dynamoTables w.env).1
            (dynamoTables w.env).2 created).1,
          results := some (verifyAll w.store (dynamoTables w.env).1
            (dynamoTables w.env).2 created).2,
          report := some (printReport (verifyAll w.store (dynamoTables w.env).1
            (dynamoTables w.env).2 created).2),
          exitCode := Except.ok 0 }) := by
  cases ha : resolve_api_base w.env with
  | error e =>
    left
    simp [main, ha, configAbortOutcome]
  | ok ab =>
    cases hb : resolve_bearer_token w.env with
    | error e =>
      left
      simp [main, ha, hb, configAbortOutcome]
    | ok tk =>
      rcases hl : runLoop w ab tk.1 tk.2 with ⟨evs, res⟩
      cases res with
      | error e =>
        right; left
        exact ⟨e, evs, by simp [main, ha, hb, hl]⟩
      | ok created =>
        right; right
        exact ⟨evs, created, by simp [main, ha, hb, hl]⟩

lemma main_results_exit_zero (w : World) (rs : List ResultRecord)
    (h : (main w).results = some rs) : (main w).exitCode = Except.ok 0 := by
  rcases main_shape w with hs | ⟨e, evs, hs⟩ | ⟨evs, created, hs⟩
  · rw [hs] at h
    simp [configAbortOutcome] at h
  · rw [hs] at h
    simp at h
  · rw [hs]

/-- C1 counterexample: a run whose collision scan found a duplicate
project PK (and a duplicate pair) still terminates with exit code 0. -/
theorem report_phase_collision_still_exits_zero :
    (main Wdup).report = some dupReport ∧ (main Wdup).exitCode = Except.ok 0 :=
  ⟨rfl, rfl⟩

/-- C1 (amended): every run reaching the report phase terminates with
exit code 0, regardless of accumulated warnings or detected collisions
(`main` returns 0 unconditionally after `_print_report`). -/
theorem report_phase_exits_zero (w : World) (r : Report)
    (h : (main w).report = some r) : (main w).exitCode = Except.ok 0 := by
  rcases main_shape w with hs | ⟨e, evs, hs⟩ | ⟨evs, created, hs⟩
  · rw [hs] at h
    simp [configAbortOutcome] at h
  · rw [hs] at h
    simp at h
  · rw [hs]

/-- Witness for the amended C1 at a concrete collision-bearing world. -/
theorem report_phase_exits_zero_witness : (main Wdup).exitCode = Except.ok 0 :=
  report_phase_exits_zero Wdup dupReport (by decide)

/-- C4 counterexample: with the baseline metadata record absent but the
project-link record present, no fallback query is issued and no warning
is recorded. -/
theorem fallback_not_triggered_by_missing_metadata :
    c4Store.getItem "t" ("BASELINE#" ++ "b1") "METADATA" = []
    ∧ (fetch_baseline_records c4Store "t" "p1" "b1").1.filter isQueryEvent = []
    ∧ (fetch_baseline_records c4Store "t" "p1" "b1").2.2 = []
    ∧ (buildResult "p1" "b1" (c4Store.getItem "t" "PROJECT#p1" "METADATA")
        (fetch_baseline_records c4Store "t" "p1" "b1").2.1
        (fetch_baseline_records c4Store "t" "p1" "b1").2.2).warnings = [] := by
  decide

/-- C4 (amended): the diagnostic fallback query fires exactly when the
project-link record (PK=PROJECT#id, SK=BASELINE#id) is absent, and then
the first of at most 20 matches is taken as the link diagnostic; the
baseline metadata record is always the plain point read; verification
findings are never fatal (a run that builds results exits 0). -/
theorem fallback_triggered_by_missing_link (st : Store) (table pid bid : String) :
    (st.getItem table ("PROJECT#" ++ pid) ("BASELINE#" ++ bid) = [] →
      (fetch_baseline_records st table pid bid).1 =
        [Event.getItem table ("PROJECT#" ++ pid) ("BASELINE#" ++ bid),
         Event.getItem table ("BASELINE#" ++ bid) "METADATA",
         Event.query table ("PROJECT#" ++ pid) 20]
      ∧ (fetch_baseline_records st table pid bid).2.1 =
          ((st.query table ("PROJECT#" ++ pid)).take 20).headD [])
    ∧ (st.getItem table ("PROJECT#" ++ pid) ("BASELINE#" ++ bid) ≠ [] →
        (fetch_baseline_records st table pid bid).1.filter isQueryEvent = []
        ∧ (fetch_baseline_records st table pid bid).2.1 =
            st.getItem table ("PROJECT#" ++ pid) ("BASELINE#" ++ bid))
    ∧ (fetch_baseline_records st table pid bid).2.2 =
        st.getItem table ("BASELINE#" ++ bid) "METADATA"
    ∧ (∀ (w : World) (rs : List ResultRecord),
        (main w).results = some rs → (main w).exitCode = Except.ok 0) := by
  refine ⟨?_, ?_, ?_, fun w rs h => main_results_exit_zero w rs h⟩
  · intro h
    have he : (st.getItem table ("PROJECT#" ++ pid) ("BASELINE#" ++ bid)).isEmpty = true := by
      rw [h]
      rfl
    simp only [fetch_baseline_records, he, if_true]
    cases htake : (st.query table ("PROJECT#" ++ pid)).take 20 with
    | nil => exact ⟨rfl, h⟩
    | cons a t => exact ⟨rfl, rfl⟩
  · intro h
    have he : (st.getItem table ("PROJECT#" ++ pid) ("BASELINE#" ++ bid)).isEmpty = false := by
      cases hg : st.getItem table ("PROJECT#" ++ pid) ("BASELINE#" ++ bid) with
      | nil => exact absurd hg h
      | cons a t => rfl
    simp only [fetch_baseline_records, he]
    exact ⟨rfl, rfl⟩
  · by_cases he : (st.getItem table ("PROJECT#" ++ pid) ("BASELINE#" ++ bid)).isEmpty = true
    · simp only [fetch_baseline_records, he, if_true]
      cases htake : (st.query table ("PROJECT#" ++ pid)).take 20 with
      | nil => rfl
      | cons a t => rfl
    · simp [fetch_baseline_records, he]

/-- Witness for the amended C4: a missing project-link record makes the
fallback query fire. -/
theorem fallback_triggered_by_missing_link_witness :
    (fetch_baseline_records c4Store "t" "p2" "b2").1 =
      [Event.getItem "t" ("PROJECT#" ++ "p2") ("BASELINE#" ++ "b2"),
       Event.getItem "t" ("BASELINE#" ++ "b2") "METADATA",
       Event.query "t" ("PROJECT#" ++ "p2") 20] :=
  ((fallback_triggered_by_missing_link c4Store "t" "p2" "b2").1 (by decide)).1

/-- C5: if every API-base candidate or every token candidate resolves to
an empty (post-strip) value, `main` aborts with exit code 1 before any
HTTP call or store read is issued; and resolution in general returns the
first non-empty stripped value in priority order. -/
theorem config_missing_aborts_before_create (w : World)
    (h : resolveFirstNonEmpty w.env API_BASE_ENV_KEYS = none
       ∨ resolveFirstNonEmpty w.env TOKEN_ENV_KEYS = none) :
    main w = configAbortOutcome
    ∧ ∀ (env : Env) (keys : List String) (v k : String),
        resolveFirstNonEmpty env keys = some (v, k) →
        ∃ ks1 ks2, keys = ks1 ++ k :: ks2
          ∧ (∀ k2 ∈ ks1, pyStrip ((env.getenv k2).getD "") = "")
          ∧ v = pyStrip ((env.getenv k).getD "") ∧ v ≠ "" := by
  constructor
  · rcases h with hb | ht
    · have ha : resolve_api_base w.env = Except.error
          "API base URL is not configured. Set one of FINZ_API_BASE, VITE_API_BASE_URL, DEV_API_URL, or API_BASE_URL." := by
        rw [resolve_api_base, hb]
      simp [main, ha, configAbortOutcome]
    · cases hb : resolveFirstNonEmpty w.env API_BASE_ENV_KEYS with
      | none =>
        have ha : resolve_api_base w.env = Except.error
            "API base URL is not configured. Set one of FINZ_API_BASE, VITE_API_BASE_URL, DEV_API_URL, or API_BASE_URL." := by
          rw [resolve_api_base, hb]
        simp [main, ha, configAbortOutcome]
      | some vk =>
        have ha : resolve_api_base w.env = Except.ok (rstripSlash vk.1) := by
          rw [resolve_api_base, hb]
        have hc : resolve_bearer_token w.env = Except.error
            "Bearer token not found in environment. Provide Cognito tokens via FINZ_JWT, FINZ_ID_TOKEN, COGNITO_ID_TOKEN, or related vars." := by
          rw [resolve_bearer_token, ht]
        simp [main, ha, hc, configAbortOutcome]
  · intro env keys v k
    induction keys with
    | nil =>
      intro hr
      simp [resolveFirstNonEmpty] at hr
    | cons a rest ih =>
      intro hr
      simp only [resolveFirstNonEmpty] at hr
      by_cases hv : pyStrip ((env.getenv a).getD "") = ""
      · rw [if_pos hv] at hr
        obtain ⟨ks1, ks2, hk, hall, hvv, hne⟩ := ih hr
        refine ⟨a :: ks1, ks2, by rw [hk]; rfl, ?_, hvv, hne⟩
        intro k2 hk2
        rcases List.mem_cons.mp hk2 with rfl | hk2m
        · exact hv
        · exact hall k2 hk2m
      · rw [if_neg hv] at hr
        have hpair : (pyStrip ((env.getenv a).getD ""), a) = (v, k) :=
          Option.some.inj hr
        have hv1 : pyStrip ((env.getenv a).getD "") = v := congrArg Prod.fst hpair
        have hk1 : a = k := congrArg Prod.snd hpair
        subst hk1
        exact ⟨[], rest, rfl, by intro k2 hk2; simp at hk2, hv1.symm,
               by rw [← hv1]; exact hv⟩

/-- Witness for C5: an empty environment aborts with exit 1 and no
events. -/
theorem config_missing_aborts_before_create_witness :
    main Wempty = configAbortOutcome :=
  (config_missing_aborts_before_create Wempty (Or.inl rfl)).1

/-- C3: the resource identifier is resolved by trying the field-name
aliases in order (projectId, project_id, id for projects; baselineId,
baseline_id for baselines) and taking the first truthy value; if every
alias is absent or empty, a ValidationError is raised and neither the
baseline creation (for a project id) nor any later step (for a baseline
id) is performed — the event trace ends at the offending create call. -/
theorem identifier_alias_resolution (w : World)
    (apiBase token tokenSource : String) (idx : Nat) :
    (∀ (data : Obj) (v : String),
        (truthyGet data "projectId" = some v →
          firstTruthy data projectIdAliases = some v)
        ∧ (truthyGet data "projectId" = none → truthyGet data "project_id" = some v →
            firstTruthy data projectIdAliases = some v)
        ∧ (truthyGet data "projectId" = none → truthyGet data "project_id" = none →
            firstTruthy data projectIdAliases = truthyGet data "id")
        ∧ (truthyGet data "baselineId" = some v →
            firstTruthy data baselineIdAliases = some v)
        ∧ (truthyGet data "baselineId" = none →
            firstTruthy data baselineIdAliases = truthyGet data "baseline_id"))
    ∧ (is2xx (w.api (projectRequest w.env apiBase token idx)).status = true →
        firstTruthy (w.api (projectRequest w.env apiBase token idx)).body
          projectIdAliases = none →
        runIter w apiBase token tokenSource idx =
          ([Event.http (projectRequest w.env apiBase token idx)],
           Except.error (RunError.validation (projectIdMissingMsg idx))))
    ∧ (∀ pid : String,
        is2xx (w.api (projectRequest w.env apiBase token idx)).status = true →
        firstTruthy (w.api (projectRequest w.env apiBase token idx)).body
          projectIdAliases = some pid →
        is2xx (w.api (baselineRequest w.env apiBase token pid idx)).status = true →
        firstTruthy (w.api (baselineRequest w.env apiBase token pid idx)).body
          baselineIdAliases = none →
        runIter w apiBase token tokenSource idx =
          ([Event.http (projectRequest w.env apiBase token idx),
            Event.http (baselineRequest w.env apiBase token pid idx)],
           Except.error (RunError.validation (baselineIdMissingMsg pid)))) := by
  refine ⟨?_, ?_, ?_⟩
  · intro data v
    refine ⟨?_, ?_, ?_, ?_, ?_⟩
    · intro h
      simp [projectIdAliases, firstTruthy, h]
    · intro h1 h2
      simp [projectIdAliases, firstTruthy, h1, h2]
    · intro h1 h2
      simp only [projectIdAliases, firstTruthy, h1, h2]
      cases h3 : truthyGet data "id" <;> simp [h3]
    · intro h
      simp [baselineIdAliases, firstTruthy, h]
    · intro h
      simp only [baselineIdAliases, firstTruthy, h]
      cases h2 : truthyGet data "baseline_id" <;> simp [h2]
  · intro h2 hn
    simp [runIter, h2, hn]
  · intro pid h2 hp hb hn
    simp [runIter, h2, hp, hb, hn]

/-- Witness for C3: a 2xx create response with only empty aliases stops
a record before baseline creation; an empty baseline response stops it
before handoff. -/
theorem identifier_alias_resolution_witness :
    runIter WnoId "http://api" "tok" "FINZ_JWT" 1 =
      ([Event.http (projectRequest WnoId.env "http://api" "tok" 1)],
       Except.error (RunError.validation (projectIdMissingMsg 1)))
    ∧ runIter WnoBid "http://api" "tok" "FINZ_JWT" 1 =
      ([Event.http (projectRequest WnoBid.env "http://api" "tok" 1),
        Event.http (baselineRequest WnoBid.env "http://api" "tok" "P" 1)],
       Except.error (RunError.validation (baselineIdMissingMsg "P"))) :=
  ⟨(identifier_alias_resolution WnoId "http://api" "tok" "FINZ_JWT" 1).2.1 rfl rfl,
   (identifier_alias_resolution WnoBid "http://api" "tok" "FINZ_JWT" 1).2.2
     "P" rfl rfl rfl rfl⟩

lemma dropWhile_head_not (q : Char → Bool) (l : List Char) :
    ∀ c, (l.dropWhile q).head? = some c → q c = false := by
  induction l with
  | nil =>
    intro c hc
    simp [List.dropWhile] at hc
  | cons a t ih =>
    intro c hc
    by_cases hq : q a = true
    · rw [List.dropWhile_cons, if_pos hq] at hc
      exact ih c hc
    · rw [List.dropWhile_cons, if_neg hq] at hc
      have hac : a = c := by simpa using hc
      subst hac
      exact Bool.eq_false_iff.mpr hq

lemma endsWithSlash_rstrip (s : String) : endsWithSlash (rstripSlash s) = false := by
  simp only [endsWithSlash, rstripSlash]
  apply decide_eq_false
  intro hcon
  rw [List.getLast?_reverse] at hcon
  have := dropWhile_head_not _ _ _ hcon
  simp at this

/-- C10: a whitespace-only environment value is treated as absent (the
value is stripped before the non-empty test), the resolved API base has
all trailing slashes removed, and every request URL appends a
slash-initial path to the base, so the join never doubles a slash. -/
theorem config_strip_and_url_join :
    (∀ s : String, (∀ c ∈ s.data, pyIsSpace c = true) → pyStrip s = "")
    ∧ (∀ (env : Env) (k : String) (rest : List String),
        pyStrip ((env.getenv k).getD "") = "" →
        resolveFirstNonEmpty env (k :: rest) = resolveFirstNonEmpty env rest)
    ∧ (∀ (env : Env) (b : String), resolve_api_base env = Except.ok b →
        endsWithSlash b = false)
    ∧ (∀ (env : Env) (b t pid bid : String) (i : Nat),
        (projectRequest env b t i).url = b ++ "/projects"
        ∧ (baselineRequest env b t pid i).url = b ++ "/baseline"
        ∧ (handoffRequest b t pid bid).url = b ++ "/projects/" ++ pid ++ "/handoff"
        ∧ (acceptRequest env b t pid bid).url
            = b ++ "/projects/" ++ pid ++ "/accept-baseline") := by
  refine ⟨?_, ?_, ?_, ?_⟩
  · intro s h
    have h0 : s.data.dropWhile pyIsSpace = [] := by
      rw [List.dropWhile_eq_nil_iff]
      exact h
    rw [pyStrip, h0]
    rfl
  · intro env k rest h
    simp only [resolveFirstNonEmpty]
    rw [if_pos h]
  · intro env b h
    cases hr : resolveFirstNonEmpty env API_BASE_ENV_KEYS with
    | none =>
      rw [resolve_api_base, hr] at h
      exact absurd h (by simp)
    | some vk =>
      rw [resolve_api_base, hr] at h
      have hb : rstripSlash vk.1 = b := Except.ok.inj h
      rw [← hb]
      exact endsWithSlash_rstrip vk.1
  · intro env b t pid bid i
    exact ⟨rfl, rfl, rfl, rfl⟩

/-- Witness for C10: a whitespace-only first candidate is skipped and
the second candidate is stripped of whitespace and trailing slashes. -/
theorem config_strip_and_url_join_witness :
    resolve_api_base wsEnv = Except.ok "http://x" ∧ endsWithSlash "http://x" = false :=
  ⟨rfl, config_strip_and_url_join.2.2.1 wsEnv "http://x" rfl⟩

lemma runIter_anatomy (w : World) (b t s : String) (i : Nat)
    (evs : List Event) (res : Except RunError CreatedRec)
    (h : runIter w b t s i = (evs, res)) :
    (∀ r, Event.http r ∈ evs → r.timeout = 30)
    ∧ (∀ rec, res = Except.ok rec →
        evs = iterEvents w.env b t i rec.project_id rec.baseline_id
        ∧ ∀ r, Event.http r ∈ evs → is2xx ((w.api r).status) = true)
    ∧ (∀ st, res = Except.error (RunError.transport st) →
        ∃ r, evs.getLast? = some (Event.http r)
          ∧ (w.api r).status = st ∧ is2xx st = false
          ∧ ∀ r2, Event.http r2 ∈ evs.dropLast →
              is2xx ((w.api r2).status) = true) := by
  simp only [runIter] at h
  split at h
  · rename_i hc1
    split at h
    · rename_i hp
      injection h with h1 h2
      subst h1
      subst h2
      refine ⟨?_, ?_, ?_⟩
      · intro r hr
        simp at hr
        subst hr
        rfl
      · intro rec hrec
        simp at hrec
      · intro st hst
        simp at hst
    · rename_i pid hp
      split at h
      · rename_i hc2
        split at h
        · rename_i hb
          injection h with h1 h2
          subst h1
          subst h2
          refine ⟨?_, ?_, ?_⟩
          · intro r hr
            simp at hr
            rcases hr with rfl | rfl <;> rfl
          · intro rec hrec
            simp at hrec
          · intro st hst
            simp at hst
        · rename_i bid hb
          split at h
          · rename_i hc3
            split at h
            · rename_i hc4
              injection h with h1 h2
              subst h1
              subst h2
              refine ⟨?_, ?_, ?_⟩
              · intro r hr
                simp at hr
                rcases hr with rfl | rfl | rfl | rfl <;> rfl
              · intro rec hrec
                simp at hrec
                subst hrec
                refine ⟨rfl, ?_⟩
                intro r hr
                simp at hr
                rcases hr with rfl | rfl | rfl | rfl
                · exact hc1
                · exact hc2
                · exact hc3
                · exact hc4
              · intro st hst
                simp at hst
            · rename_i hc4
              injection h with h1 h2
              subst h1
              subst h2
              refine ⟨?_, ?_, ?_⟩
              · intro r hr
                simp at hr
                rcases hr with rfl | rfl | rfl | rfl <;> rfl
              · intro rec hrec
                simp at hrec
              · intro st hst
                simp only [Except.error.injEq, RunError.transport.injEq] at hst
                refine ⟨acceptRequest w.env b t pid bid, rfl, hst, ?_, ?_⟩
                · rw [← hst]
                  exact Bool.eq_false_iff.mpr hc4
                · intro r2 hr2
                  simp at hr2
                  rcases hr2 with rfl | rfl | rfl
                  · exact hc1
                  · exact hc2
                  · exact hc3
          · rename_i hc3
            injection h with h1 h2
            subst h1
            subst h2
            refine ⟨?_, ?_, ?_⟩
            · intro r hr
              simp at hr
              rcases hr with rfl | rfl | rfl <;> rfl
            · intro rec hrec
              simp at hrec
            · intro st hst
              simp only [Except.error.injEq, RunError.transport.injEq] at hst
              refine ⟨handoffRequest b t pid bid, rfl, hst, ?_, ?_⟩
              · rw [← hst]
                exact Bool.eq_false_iff.mpr hc3
              · intro r2 hr2
                simp at hr2
                rcases hr2 with rfl | rfl
                · exact hc1
                · exact hc2
      · rename_i hc2
        injection h with h1 h2
        subst h1
        subst h2
        refine ⟨?_, ?_, ?_⟩
        · intro r hr
          simp at hr
          rcases hr with rfl | rfl <;> rfl
        · intro rec hrec
          simp at hrec
        · intro st hst
          simp only [Except.error.injEq, RunError.transport.injEq] at hst
          refine ⟨baselineRequest w.env b t pid i, rfl, hst, ?_, ?_⟩
          · rw [← hst]
            exact Bool.eq_false_iff.mpr hc2
          · intro r2 hr2
            simp at hr2
            subst hr2
            exact hc1
  · rename_i hc1
    injection h with h1 h2
    subst h1
    subst h2
    refine ⟨?_, ?_, ?_⟩
    · intro r hr
      simp at hr
      subst hr
      rfl
    · intro rec hrec
      simp at hrec
    · intro st hst
      simp only [Except.error.injEq, RunError.transport.injEq] at hst
      refine ⟨projectRequest w.env b t i, rfl, hst, ?_, ?_⟩
      · rw [← hst]
        exact Bool.eq_false_iff.mpr hc1
      · intro r2 hr2
        simp at hr2

lemma getLast?_append_right {α : Type} (l1 l2 : List α) (x : α)
    (h : l2.getLast? = some x) : (l1 ++ l2).getLast? = some x := by
  have h2 : l2.reverse.head? = some x := by
    rw [List.head?_reverse]
    exact h
  cases hrev : l2.reverse with
  | nil =>
    rw [hrev] at h2
    simp at h2
  | cons y ys =>
    rw [hrev] at h2
    simp at h2
    rw [← List.head?_reverse, List.reverse_append, hrev]
    simp [h2]

lemma dropLast_append_right {α : Type} (l1 l2 : List α) (h : l2 ≠ []) :
    (l1 ++ l2).dropLast = l1 ++ l2.dropLast := by
  induction l1 with
  | nil => rfl
  | cons a t ih =>
    have hstep : (a :: (t ++ l2)).dropLast = a :: (t ++ l2).dropLast := by
      cases htl : t ++ l2 with
      | nil => exact absurd (List.append_eq_nil.mp htl).2 h
      | cons b u => rfl
    show (a :: (t ++ l2)).dropLast = a :: (t ++ l2.dropLast)
    rw [hstep, ih]

lemma ne_nil_of_getLast?_eq_some {α : Type} {l : List α} {x : α}
    (h : l.getLast? = some x) : l ≠ [] := by
  intro hn
  rw [hn] at h
  simp at h

lemma runLoopAux_anatomy (w : World) (b t s : String) :
    ∀ (l : List Nat) (evs : List Event) (res : Except RunError (List CreatedRec)),
      runLoopAux w b t s l = (evs, res) →
      (∀ r, Event.http r ∈ evs → r.timeout = 30)
      ∧ (∀ recs, res = Except.ok recs →
          recs.length = l.length
          ∧ evs = (l.zip recs).flatMap
              (fun p => iterEvents w.env b t p.1 p.2.project_id p.2.baseline_id)
          ∧ ∀ r, Event.http r ∈ evs → is2xx ((w.api r).status) = true)
      ∧ (∀ st, res = Except.error (RunError.transport st) →
          ∃ r, evs.getLast? = some (Event.http r)
            ∧ (w.api r).status = st ∧ is2xx st = false
            ∧ ∀ r2, Event.http r2 ∈ evs.dropLast →
                is2xx ((w.api r2).status) = true) := by
  intro l
  induction l with
  | nil =>
    intro evs res h
    simp only [runLoopAux] at h
    injection h with h1 h2
    subst h1
    subst h2
    refine ⟨?_, ?_, ?_⟩
    · intro r hr
      simp at hr
    · intro recs hrecs
      simp only [Except.ok.injEq] at hrecs
      subst hrecs
      exact ⟨rfl, rfl, fun r hr => absurd hr (by simp)⟩
    · intro st hst
      simp at hst
  | cons a rest ih =>
    intro evs res h
    simp only [runLoopAux] at h
    split at h
    · rename_i evs1 e hi
      injection h with h1 h2
      subst h1
      subst h2
      obtain ⟨ht1, _, htr1⟩ := runIter_anatomy w b t s a evs1 (Except.error e) hi
      refine ⟨ht1, ?_, ?_⟩
      · intro recs hrecs
        simp at hrecs
      · intro st hst
        simp only [Except.error.injEq] at hst
        subst hst
        exact htr1 st rfl
    · rename_i evs1 rec hi
      split at h
      · rename_i evs2 e2 hrest
        injection h with h1 h2
        subst h1
        subst h2
        obtain ⟨ht1, hok1, _⟩ := runIter_anatomy w b t s a evs1 (Except.ok rec) hi
        obtain ⟨ihT, _, ihE⟩ := ih evs2 (Except.error e2) hrest
        refine ⟨?_, ?_, ?_⟩
        · intro r hr
          rcases List.mem_append.mp hr with hr1 | hr2
          · exact ht1 r hr1
          · exact ihT r hr2
        · intro recs hrecs
          simp at hrecs
        · intro st hst
          simp only [Except.error.injEq] at hst
          subst hst
          obtain ⟨r, hlast, hstat, h2xx, hdrop⟩ := ihE st rfl
          have hne : evs2 ≠ [] := ne_nil_of_getLast?_eq_some hlast
          refine ⟨r, getLast?_append_right evs1 evs2 _ hlast, hstat, h2xx, ?_⟩
          intro r2 hr2
          rw [dropLast_append_right evs1 evs2 hne] at hr2
          rcases List.mem_append.mp hr2 with hr1 | hr3
          · exact (hok1 rec rfl).2 r2 hr1
          · exact hdrop r2 hr3
      · rename_i evs2 recs2 hrest
        injection h with h1 h2
        subst h1
        subst h2
        obtain ⟨ht1, hok1, _⟩ := runIter_anatomy w b t s a evs1 (Except.ok rec) hi
        obtain ⟨ihT, ihOk, _⟩ := ih evs2 (Except.ok recs2) hrest
        refine ⟨?_, ?_, ?_⟩
        · intro r hr
          rcases List.mem_append.mp hr with hr1 | hr2
          · exact ht1 r hr1
          · exact ihT r hr2
        · intro recs hrecs
          simp only [Except.ok.injEq] at hrecs
          subst hrecs
          obtain ⟨hlen, hevs2, h2xx2⟩ := ihOk recs2 rfl
          obtain ⟨hevs1, h2xx1⟩ := hok1 rec rfl
          refine ⟨by simp [hlen], ?_, ?_⟩
          · rw [List.zip_cons_cons, List.flatMap_cons, ← hevs1, ← hevs2]
          · intro r hr
            rcases List.mem_append.mp hr with hr1 | hr2
            · exact h2xx1 r hr1
            · exact h2xx2 r hr2
        · intro st hst
          simp at hst

lemma fetch_events_storeRead (s : Store) (table pid bid : String) :
    ∀ e ∈ (fetch_baseline_records s table pid bid).1, isStoreRead e = true := by
  intro e he
  by_cases hc : (s.getItem table ("PROJECT#" ++ pid) ("BASELINE#" ++ bid)).isEmpty = true
  · simp only [fetch_baseline_records, hc, if_true] at he
    cases htake : (s.query table ("PROJECT#" ++ pid)).take 20 with
    | nil =>
      rw [htake] at he
      simp at he
      rcases he with rfl | rfl | rfl <;> rfl
    | cons a tl =>
      rw [htake] at he
      simp at he
      rcases he with rfl | rfl | rfl <;> rfl
  · simp [fetch_baseline_records, hc] at he
    rcases he with rfl | rfl <;> rfl

lemma verifyAll_anatomy (st : Store) (pt ft : String) :
    ∀ created : List CreatedRec,
      (∀ e ∈ (verifyAll st pt ft created).1, isStoreRead e = true)
      ∧ (verifyAll st pt ft created).2.length = created.length
      ∧ (verifyAll st pt ft created).2.map (fun r => (r.project_id, r.baseline_id))
          = created.map (fun c => (c.project_id, c.baseline_id)) := by
  intro created
  induction created with
  | nil => exact ⟨fun e he => absurd he (by simp [verifyAll]), rfl, rfl⟩
  | cons c rest ih =>
    obtain ⟨ihS, ihL, ihM⟩ := ih
    refine ⟨?_, ?_, ?_⟩
    · intro e he
      simp only [verifyAll] at he
      rcases List.mem_append.mp he with h1 | h2
      · rcases List.mem_append.mp h1 with h3 | h4
        · simp [fetch_project_metadata] at h3
          rw [h3]
          rfl
        · exact fetch_events_storeRead st ft c.project_id c.baseline_id e h4
      · exact ihS e h2
    · simp only [verifyAll, List.length_cons, ihL]
    · simp [verifyAll, ihM]
      exact ⟨rfl, rfl⟩


/-- C7: a run that reaches the verification phase has performed exactly
three iterations, each issuing create-project, create-baseline (with the
returned project id), handoff and accept in order before the next
iteration starts; all verification store reads come after every HTTP
call; and the run exits 0. -/
theorem workflow_sequential_batch (w : World) (apiBase : String)
    (tk : String × String) (rs : List ResultRecord)
    (h1 : resolve_api_base w.env = Except.ok apiBase)
    (h2 : resolve_bearer_token w.env = Except.ok tk)
    (h3 : (main w).results = some rs) :
    rs.length = 3
    ∧ (main w).exitCode = Except.ok 0
    ∧ ∃ r1 r2 r3 evsV, rs = [r1, r2, r3]
        ∧ (main w).events =
            iterEvents w.env apiBase tk.1 1 r1.project_id r1.baseline_id
            ++ iterEvents w.env apiBase tk.1 2 r2.project_id r2.baseline_id
            ++ iterEvents w.env apiBase tk.1 3 r3.project_id r3.baseline_id
            ++ evsV
        ∧ ∀ e ∈ evsV, isStoreRead e = true := by
  rcases hl : runLoop w apiBase tk.1 tk.2 with ⟨evs, res⟩
  cases res with
  | error e =>
    have hm : main w = { events := evs, results := none, report := none,
                         exitCode := Except.error e } := by
      simp [main, h1, h2, hl]
    rw [hm] at h3
    simp at h3
  | ok created =>
    have hm : main w =
        { events := evs ++ (verifyAll w.store (dynamoTables w.env).1
            (dynamoTables w.env).2 created).1,
          results := some (verifyAll w.store (dynamoTables w.env).1
            (dynamoTables w.env).2 created).2,
          report := some (printReport (verifyAll w.store (dynamoTables w.env).1
            (dynamoTables w.env).2 created).2),
          exitCode := Except.ok 0 } := by
      simp [main, h1, h2, hl]
    rw [hm] at h3
    simp only [Option.some.injEq] at h3
    obtain ⟨_, lOk, _⟩ := runLoopAux_anatomy w apiBase tk.1 tk.2 [1, 2, 3] evs
      (Except.ok created) hl
    obtain ⟨hlen3, hevs, _⟩ := lOk created rfl
    have hclen : created.length = 3 := by simpa using hlen3
    obtain ⟨c1, c2, c3, hc⟩ := List.length_eq_three.mp hclen
    subst hc
    obtain ⟨hS, hVlen, hVmap⟩ := verifyAll_anatomy w.store (dynamoTables w.env).1
      (dynamoTables w.env).2 [c1, c2, c3]
    have hrslen : rs.length = 3 := by
      rw [← h3]
      simpa using hVlen
    obtain ⟨r1, r2, r3, hr⟩ := List.length_eq_three.mp hrslen
    subst hr
    rw [h3] at hVmap
    simp only [List.map_cons, List.map_nil, List.cons.injEq, Prod.mk.injEq] at hVmap
    obtain ⟨⟨hid1, hbd1⟩, ⟨hid2, hbd2⟩, ⟨hid3, hbd3⟩, _⟩ := hVmap
    refine ⟨rfl, by rw [hm], r1, r2, r3,
      (verifyAll w.store (dynamoTables w.env).1 (dynamoTables w.env).2
        [c1, c2, c3]).1, rfl, ?_, hS⟩
    rw [hm]
    show evs ++ _ = _
    rw [hevs]
    simp only [List.zip_cons_cons, List.zip_nil_right, List.flatMap_cons,
      List.flatMap_nil, List.append_nil]
    rw [← hid1, ← hbd1, ← hid2, ← hbd2, ← hid3, ← hbd3]
    simp [List.append_assoc]

/-- Witness for C7 on the happy-path world. -/
theorem workflow_sequential_batch_witness :
    rsW.length = 3 ∧ (main Wgood).exitCode = Except.ok 0 := by
  have h := workflow_sequential_batch Wgood "http://api" ("tok", "FINZ_JWT") rsW
    rfl rfl rfl
  exact ⟨h.1, h.2.1⟩

/-- C8: every HTTP call of a run carries the fixed per-call timeout of
30; and a transport failure (non-2xx status under the external-interface
contract) aborts the run at that call — it is the last event, every
earlier HTTP call had succeeded (so the failed call was never retried),
and neither results nor report are produced. -/
theorem transport_timeout_and_abort (w : World) (st : Nat) :
    (∀ r, Event.http r ∈ (main w).events → r.timeout = 30)
    ∧ ((main w).exitCode = Except.error (RunError.transport st) →
        (main w).report = none ∧ (main w).results = none
        ∧ ∃ r, ((main w).events).getLast? = some (Event.http r)
            ∧ (w.api r).status = st ∧ is2xx st = false
            ∧ ∀ r2, Event.http r2 ∈ ((main w).events).dropLast →
                is2xx ((w.api r2).status) = true) := by
  cases ha : resolve_api_base w.env with
  | error e =>
    have hm : main w = configAbortOutcome := by
      simp [main, ha, configAbortOutcome]
    rw [hm]
    refine ⟨?_, ?_⟩
    · intro r hr
      simp [configAbortOutcome] at hr
    · intro hex
      simp [configAbortOutcome] at hex
  | ok ab =>
    cases hb : resolve_bearer_token w.env with
    | error e =>
      have hm : main w = configAbortOutcome := by
        simp [main, ha, hb, configAbortOutcome]
      rw [hm]
      refine ⟨?_, ?_⟩
      · intro r hr
        simp [configAbortOutcome] at hr
      · intro hex
        simp [configAbortOutcome] at hex
    | ok tk =>
      rcases hl : runLoop w ab tk.1 tk.2 with ⟨evs, res⟩
      obtain ⟨lT, lOk, lTr⟩ := runLoopAux_anatomy w ab tk.1 tk.2 [1, 2, 3] evs res hl
      cases res with
      | error e =>
        have hm : main w = { events := evs, results := none, report := none,
                             exitCode := Except.error e } := by
          simp [main, ha, hb, hl]
        rw [hm]
        refine ⟨lT, ?_⟩
        intro hex
        simp only [Except.error.injEq] at hex
        subst hex
        exact ⟨rfl, rfl, lTr st rfl⟩
      | ok created =>
        have hm : main w =
            { events := evs ++ (verifyAll w.store (dynamoTables w.env).1
                (dynamoTables w.env).2 created).1,
              results := some (verifyAll w.store (dynamoTables w.env).1
                (dynamoTables w.env).2 created).2,
              report := some (printReport (verifyAll w.store (dynamoTables w.env).1
                (dynamoTables w.env).2 created).2),
              exitCode := Except.ok 0 } := by
          simp [main, ha, hb, hl]
        rw [hm]
        refine ⟨?_, ?_⟩
        · intro r hr
          rcases List.mem_append.mp hr with hr1 | hr2
          · exact lT r hr1
          · have := (verifyAll_anatomy w.store (dynamoTables w.env).1
              (dynamoTables w.env).2 created).1 (Event.http r) hr2
            simp [isStoreRead] at this
        · intro hex
          simp at hex

/-- Witness for C8: a 500 on the first accept call aborts the run with
no report. -/
theorem transport_timeout_and_abort_witness :
    (main Wfail).exitCode = Except.error (RunError.transport 500)
    ∧ (main Wfail).report = none :=
  ⟨rfl, ((transport_timeout_and_abort Wfail 500).2 rfl).1⟩


end Validator
